import Mathlib

/-!
# Verification of the drone motion simulation of `aisp`

Shallow embedding of the drone simulation loop of `src/pages/Dashboard.tsx`
(constants from `src/constants`, bounds from `src/utils/map`), over the real
numbers, together with proofs of the behavioural properties stated in the
specification of the repository.
-/

namespace Aisp

noncomputable section

/-! ## Constants (`DRONE_PHYSICS` and `GEO_CONVERSION` in `src/constants`) -/

/-- `DRONE_PHYSICS.MAX_SPEED`: maximum speed in degrees per frame. -/
def MAX_SPEED : ℝ := 0.00002

/-- `DRONE_PHYSICS.ACCELERATION`. -/
def ACCELERATION : ℝ := 0.00006

/-- `DRONE_PHYSICS.DRAG`: velocity multiplier per frame. -/
def DRAG : ℝ := 0.90

/-- `DRONE_PHYSICS.YAW_RATE_DEG_PER_FRAME`. -/
def YAW_RATE_DEG_PER_FRAME : ℝ := 2.0

/-- `DRONE_PHYSICS.AUTO_SPEED_MULTIPLIER`: cruising-speed multiplier in auto mode. -/
def AUTO_SPEED_MULTIPLIER : ℝ := 0.8

/-- `DRONE_PHYSICS.AUTO_SPEED_CORRECTION`: speed-error correction factor in auto mode. -/
def AUTO_SPEED_CORRECTION : ℝ := 0.5

/-- `DRONE_PHYSICS.BOUNDARY_MARGIN`. -/
def BOUNDARY_MARGIN : ℝ := 1e-9

/-- `DRONE_PHYSICS.MAX_DELTA_TIME` (seconds). -/
def MAX_DELTA_TIME : ℝ := 0.05

/-- `DRONE_PHYSICS.FPS_BASELINE`. -/
def FPS_BASELINE : ℝ := 60

/-- `GEO_CONVERSION.METERS_PER_DEG_LAT`. -/
def METERS_PER_DEG_LAT : ℝ := 111320

/-! ## Auxiliary numeric functions -/

/-- `Math.hypot x y` on finite inputs. -/
def hypot (x y : ℝ) : ℝ := Real.sqrt (x ^ 2 + y ^ 2)

/-- `Math.atan2 y x`: the argument of the point `(x, y)`. -/
def atan2 (y x : ℝ) : ℝ := Complex.arg ⟨x, y⟩

/-- `Math.trunc`: rounding toward zero. -/
def jsTrunc (x : ℝ) : ℝ := if 0 ≤ x then (⌊x⌋ : ℤ) else (⌈x⌉ : ℤ)

/-- The JavaScript remainder operator `a % b`: `a - b * trunc (a / b)`,
whose result takes the sign of the dividend `a`. -/
def jsRem (a b : ℝ) : ℝ := a - b * jsTrunc (a / b)

/-! ## Data model -/

/-- The four keyboard control flags tracked by `keys.current` in `Dashboard`. -/
structure Keys where
  up : Bool
  down : Bool
  left : Bool
  right : Bool
deriving DecidableEq

/-- All flags cleared (the initial `keys.current` value, and the auto-mode view). -/
def keysNone : Keys := ⟨false, false, false, false⟩

/-- Holding only the left arrow. -/
def keysLeft : Keys := ⟨false, false, true, false⟩

/-- The operating mode of the dashboard (`'manual' | 'auto'`). -/
inductive Mode
  | manual
  | auto
deriving DecidableEq

/-- The operating envelope: the bounding box computed by `calculateMapBounds`. -/
structure Bounds where
  minLng : ℝ
  minLat : ℝ
  maxLng : ℝ
  maxLat : ℝ

/-- The mutable motion state of the simulation loop
(`posLng`, `posLat`, `yaw`, `velX`, `velY` in `Dashboard`). -/
structure SimState where
  posLng : ℝ
  posLat : ℝ
  yaw : ℝ
  velX : ℝ
  velY : ℝ

/-- The drone sample published through `setDrone` every tick. -/
structure DroneSample where
  longitude : ℝ
  latitude : ℝ
  headingDegrees : ℝ

/-! ## One simulation step (the body of `loop` in `Dashboard`) -/

/-- Yaw update from the arrow keys: in manual mode `ArrowLeft` decreases and
`ArrowRight` increases the yaw by `YAW_RATE_DEG_PER_FRAME` (in radians) per
scaled frame; auto mode never yaws here. -/
def yawAfterKeys (mode : Mode) (keys : Keys) (yaw scale : ℝ) : ℝ :=
  if mode = Mode.manual then
    let y1 := if keys.left then yaw - (YAW_RATE_DEG_PER_FRAME * Real.pi / 180) * scale else yaw
    if keys.right then y1 + (YAW_RATE_DEG_PER_FRAME * Real.pi / 180) * scale else y1
  else yaw

/-- Thrust selection: manual sums `±ACCELERATION` from the up/down flags; auto
drives the current speed toward `MAX_SPEED * AUTO_SPEED_MULTIPLIER` through a
clamped proportional controller. -/
def thrustOf (mode : Mode) (keys : Keys) (velX velY : ℝ) : ℝ :=
  if mode = Mode.manual then
    (if keys.up then ACCELERATION else 0) + (if keys.down then -ACCELERATION else 0)
  else
    let desiredSpeed := MAX_SPEED * AUTO_SPEED_MULTIPLIER
    let currentSpeed := hypot velX velY
    let speedError := desiredSpeed - currentSpeed
    max (-ACCELERATION) (min ACCELERATION (speedError * AUTO_SPEED_CORRECTION))

/-- The kinematic part of one step: yaw update, thrust, acceleration along the
heading, drag, speed clamp, and position update (lines 96–127 of
`Dashboard.tsx`), before the boundary policy. -/
def stepKinematics (mode : Mode) (keys : Keys) (scale : ℝ) (st : SimState) : SimState :=
  let yaw := yawAfterKeys mode keys st.yaw scale
  let thrust := thrustOf mode keys st.velX st.velY
  let ax := Real.sin yaw * thrust
  let ay := Real.cos yaw * thrust
  let vx1 := (st.velX + ax * scale) * DRAG
  let vy1 := (st.velY + ay * scale) * DRAG
  let speed := hypot vx1 vy1
  let vx := if MAX_SPEED < speed then vx1 * (MAX_SPEED / speed) else vx1
  let vy := if MAX_SPEED < speed then vy1 * (MAX_SPEED / speed) else vy1
  { posLng := st.posLng + vx
    posLat := st.posLat + vy
    yaw := yaw
    velX := vx
    velY := vy }

/-- West-edge bounce: if the position has crossed `minLng` (within the margin)
and the velocity still points west, negate `velX` and recompute the yaw. -/
def reflectWest (b : Bounds) (st : SimState) : SimState :=
  if st.posLng ≤ b.minLng + BOUNDARY_MARGIN ∧ st.velX < 0 then
    { st with velX := -st.velX, yaw := atan2 (-st.velX) st.velY }
  else st

/-- East-edge bounce. -/
def reflectEast (b : Bounds) (st : SimState) : SimState :=
  if b.maxLng - BOUNDARY_MARGIN ≤ st.posLng ∧ 0 < st.velX then
    { st with velX := -st.velX, yaw := atan2 (-st.velX) st.velY }
  else st

/-- South-edge bounce. -/
def reflectSouth (b : Bounds) (st : SimState) : SimState :=
  if st.posLat ≤ b.minLat + BOUNDARY_MARGIN ∧ st.velY < 0 then
    { st with velY := -st.velY, yaw := atan2 st.velX (-st.velY) }
  else st

/-- North-edge bounce. -/
def reflectNorth (b : Bounds) (st : SimState) : SimState :=
  if b.maxLat - BOUNDARY_MARGIN ≤ st.posLat ∧ 0 < st.velY then
    { st with velY := -st.velY, yaw := atan2 st.velX (-st.velY) }
  else st

/-- Final position clamp into the envelope, on both axes. -/
def clampPos (b : Bounds) (st : SimState) : SimState :=
  { st with
    posLng := min b.maxLng (max b.minLng st.posLng)
    posLat := min b.maxLat (max b.minLat st.posLat) }

/-- The boundary policy (lines 141–152 of `Dashboard.tsx`): in auto mode the
four edge reflections are checked in order west, east, south, north and then
the position is clamped; in manual mode the position is only clamped. -/
def applyBoundary (mode : Mode) (b : Bounds) (st : SimState) : SimState :=
  if mode = Mode.auto then
    clampPos b (reflectNorth b (reflectSouth b (reflectEast b (reflectWest b st))))
  else
    clampPos b st

/-- The instantaneous speed published through `setSpeedMps`: angular velocity
converted to meters per second with the latitude-dependent longitude scale,
guarded against a zero time delta. -/
def instSpeedOf (velX velY posLat dt : ℝ) : ℝ :=
  let metersPerDegLon := METERS_PER_DEG_LAT * Real.cos (posLat * Real.pi / 180)
  let dxMeters := velX * metersPerDegLon
  let dyMeters := velY * METERS_PER_DEG_LAT
  if 0 < dt then hypot dxMeters dyMeters / dt else 0

/-- Heading in degrees as published by `setDrone`:
`((yaw * 180) / Math.PI + 360) % 360` with the JavaScript remainder. -/
def headingDegOf (yaw : ℝ) : ℝ := jsRem (yaw * 180 / Real.pi + 360) 360

/-- The full output of one loop iteration: the next motion state, the drone
sample published through `setDrone`, and the speed published through
`setSpeedMps`. -/
structure StepOutput where
  state : SimState
  sample : DroneSample
  speedMps : ℝ

/-- One full iteration of `loop` for a given (already `MAX_DELTA_TIME`-clamped)
time delta `dt`: kinematics, telemetry projection (computed from the
post-clamp velocity and the post-update latitude, before the boundary
policy), then the boundary policy and the published sample. -/
def step (mode : Mode) (keys : Keys) (b : Bounds) (dt : ℝ) (st : SimState) : StepOutput :=
  let scale := dt * FPS_BASELINE
  let k := stepKinematics mode keys scale st
  let speedMps := instSpeedOf k.velX k.velY k.posLat dt
  let fin := applyBoundary mode b k
  { state := fin
    sample :=
      { longitude := fin.posLng
        latitude := fin.posLat
        headingDegrees := headingDegOf fin.yaw }
    speedMps := speedMps }

/-- Iterated full steps with fixed mode, keys, bounds and time delta. -/
def runSteps (mode : Mode) (keys : Keys) (b : Bounds) (dt : ℝ) (st : SimState) : ℕ → SimState
  | 0 => st
  | n + 1 => (step mode keys b dt (runSteps mode keys b dt st n)).state

/-- The drone sample a motion state publishes (the argument of `setDrone`). -/
def publishOf (st : SimState) : DroneSample :=
  { longitude := st.posLng
    latitude := st.posLat
    headingDegrees := headingDegOf st.yaw }

/-- The motion state a fresh simulation-loop instance starts from: position and
heading are read back from the last published drone sample, the velocity
components are initialized to `0` (lines 82–86 of `Dashboard.tsx`). -/
def initLoopState (s : DroneSample) : SimState :=
  { posLng := s.longitude
    posLat := s.latitude
    yaw := s.headingDegrees * Real.pi / 180
    velX := 0
    velY := 0 }

/-! ## Input sampler (the `onDown` / `onUp` handlers) -/

/-- The `KeyboardEvent.key` values the sampler distinguishes. -/
inductive JsKey
  | arrowUp
  | arrowDown
  | arrowLeft
  | arrowRight
  | other
deriving DecidableEq

/-- The `onDown` key handler: ignores everything unless the mode is manual,
otherwise sets the flag matching an arrow key. -/
def onKeyDown (mode : Mode) (k : JsKey) (ks : Keys) : Keys :=
  if mode ≠ Mode.manual then ks
  else
    let k1 := if k = JsKey.arrowUp then { ks with up := true } else ks
    let k2 := if k = JsKey.arrowDown then { k1 with down := true } else k1
    let k3 := if k = JsKey.arrowLeft then { k2 with left := true } else k2
    if k = JsKey.arrowRight then { k3 with right := true } else k3

/-- The `onUp` key handler: ignores everything unless the mode is manual,
otherwise clears the flag matching an arrow key. -/
def onKeyUp (mode : Mode) (k : JsKey) (ks : Keys) : Keys :=
  if mode ≠ Mode.manual then ks
  else
    let k1 := if k = JsKey.arrowUp then { ks with up := false } else ks
    let k2 := if k = JsKey.arrowDown then { k1 with down := false } else k1
    let k3 := if k = JsKey.arrowLeft then { k2 with left := false } else k2
    if k = JsKey.arrowRight then { k3 with right := false } else k3

/-- The dashboard state the mode-toggle button acts on. -/
structure UiState where
  mode : Mode
  keys : Keys

/-- The mode-toggle button: `setMode(m => m === 'manual' ? 'auto' : 'manual')`;
the key flags are not touched. -/
def toggleModeUi (u : UiState) : UiState :=
  { u with mode := if u.mode = Mode.manual then Mode.auto else Mode.manual }

/-! ## Map bounds (`calculateMapBounds` in `src/utils/map`) -/

/-- The bounding box of a nonempty coordinate list, as computed by the external
`@turf/bbox` utility: componentwise min/max over all `(lng, lat)` points. -/
def bboxOf (p0 : ℝ × ℝ) (pts : List (ℝ × ℝ)) : Bounds :=
  pts.foldl
    (fun b p =>
      { minLng := min b.minLng p.1
        minLat := min b.minLat p.2
        maxLng := max b.maxLng p.1
        maxLat := max b.maxLat p.2 })
    { minLng := p0.1, minLat := p0.2, maxLng := p0.1, maxLat := p0.2 }

/-- `calculateMapBounds`: the bounding box of the polygon's coordinates and its
center point.  It returns unconditionally; there is no validation and no error
path. -/
def calculateMapBounds (p0 : ℝ × ℝ) (pts : List (ℝ × ℝ)) : Bounds × (ℝ × ℝ) :=
  let b := bboxOf p0 pts
  (b, ((b.minLng + b.maxLng) / 2, (b.minLat + b.maxLat) / 2))

/-! ## Basic facts about `hypot` -/

theorem hypot_nonneg (x y : ℝ) : 0 ≤ hypot x y := Real.sqrt_nonneg _

theorem hypot_mul_const (x y c : ℝ) : hypot (x * c) (y * c) = hypot x y * |c| := by
  unfold hypot
  rw [mul_pow, mul_pow, ← add_mul, Real.sqrt_mul (by positivity), Real.sqrt_sq_eq_abs]

theorem hypot_neg_left (x y : ℝ) : hypot (-x) y = hypot x y := by
  unfold hypot
  rw [neg_sq]

theorem hypot_neg_right (x y : ℝ) : hypot x (-y) = hypot x y := by
  unfold hypot
  rw [neg_sq]

theorem hypot_zero_right (x : ℝ) : hypot x 0 = |x| := by
  unfold hypot
  rw [zero_pow two_ne_zero, add_zero, Real.sqrt_sq_eq_abs]

theorem hypot_sin_cos (s t : ℝ) :
    hypot (Real.sin t * s) (Real.cos t * s) = |s| := by
  rw [hypot_mul_const]
  unfold hypot
  rw [Real.sin_sq_add_cos_sq, Real.sqrt_one, one_mul]

/-! ## The speed clamp and the speed-bound invariant (claim C1) -/

theorem clamp_hypot_le (vx1 vy1 : ℝ) :
    hypot (if MAX_SPEED < hypot vx1 vy1 then vx1 * (MAX_SPEED / hypot vx1 vy1) else vx1)
      (if MAX_SPEED < hypot vx1 vy1 then vy1 * (MAX_SPEED / hypot vx1 vy1) else vy1)
      ≤ MAX_SPEED := by
  by_cases h : MAX_SPEED < hypot vx1 vy1
  · have hpos : 0 < hypot vx1 vy1 := lt_trans (by norm_num [MAX_SPEED]) h
    rw [if_pos h, if_pos h, hypot_mul_const,
      abs_of_nonneg (div_nonneg (by norm_num [MAX_SPEED]) hpos.le),
      mul_div_cancel₀ _ hpos.ne']
  · rw [if_neg h, if_neg h]
    exact le_of_not_lt h

theorem stepKinematics_speed_le (mode : Mode) (keys : Keys) (scale : ℝ) (st : SimState) :
    hypot (stepKinematics mode keys scale st).velX (stepKinematics mode keys scale st).velY
      ≤ MAX_SPEED := by
  simp only [stepKinematics]
  exact clamp_hypot_le _ _

theorem reflectWest_hypot (b : Bounds) (st : SimState) :
    hypot (reflectWest b st).velX (reflectWest b st).velY = hypot st.velX st.velY := by
  unfold reflectWest
  split
  · exact hypot_neg_left _ _
  · rfl

theorem reflectEast_hypot (b : Bounds) (st : SimState) :
    hypot (reflectEast b st).velX (reflectEast b st).velY = hypot st.velX st.velY := by
  unfold reflectEast
  split
  · exact hypot_neg_left _ _
  · rfl

theorem reflectSouth_hypot (b : Bounds) (st : SimState) :
    hypot (reflectSouth b st).velX (reflectSouth b st).velY = hypot st.velX st.velY := by
  unfold reflectSouth
  split
  · exact hypot_neg_right _ _
  · rfl

theorem reflectNorth_hypot (b : Bounds) (st : SimState) :
    hypot (reflectNorth b st).velX (reflectNorth b st).velY = hypot st.velX st.velY := by
  unfold reflectNorth
  split
  · exact hypot_neg_right _ _
  · rfl

theorem applyBoundary_hypot (mode : Mode) (b : Bounds) (st : SimState) :
    hypot (applyBoundary mode b st).velX (applyBoundary mode b st).velY
      = hypot st.velX st.velY := by
  unfold applyBoundary
  split
  · show hypot (clampPos _ _).velX (clampPos _ _).velY = _
    simp only [clampPos]
    rw [reflectNorth_hypot, reflectSouth_hypot, reflectEast_hypot, reflectWest_hypot]
  · rfl

/-- C1: at the end of every simulation step, for every operating mode, every
combination of control inputs, every envelope, every time delta and every
starting state, the velocity magnitude satisfies
`hypot velX velY ≤ MAX_SPEED`: the speed clamp rescales both components
proportionally to exactly `MAX_SPEED` when the post-drag speed exceeds it, and
the boundary reflection only negates components, preserving the magnitude. -/
theorem speed_bound_after_step (mode : Mode) (keys : Keys) (b : Bounds) (dt : ℝ)
    (st : SimState) :
    hypot (step mode keys b dt st).state.velX (step mode keys b dt st).state.velY
      ≤ MAX_SPEED := by
  have h : (step mode keys b dt st).state
      = applyBoundary mode b (stepKinematics mode keys (dt * FPS_BASELINE) st) := rfl
  rw [h, applyBoundary_hypot]
  exact stepKinematics_speed_le _ _ _ _

/-! ## Envelope containment (claim C2) -/

theorem clampPos_mem (b : Bounds) (st : SimState)
    (h1 : b.minLng ≤ b.maxLng) (h2 : b.minLat ≤ b.maxLat) :
    b.minLng ≤ (clampPos b st).posLng ∧ (clampPos b st).posLng ≤ b.maxLng ∧
    b.minLat ≤ (clampPos b st).posLat ∧ (clampPos b st).posLat ≤ b.maxLat :=
  ⟨le_min h1 (le_max_left _ _), min_le_left _ _,
    le_min h2 (le_max_left _ _), min_le_left _ _⟩

theorem applyBoundary_mem (mode : Mode) (b : Bounds) (st : SimState)
    (h1 : b.minLng ≤ b.maxLng) (h2 : b.minLat ≤ b.maxLat) :
    b.minLng ≤ (applyBoundary mode b st).posLng ∧
    (applyBoundary mode b st).posLng ≤ b.maxLng ∧
    b.minLat ≤ (applyBoundary mode b st).posLat ∧
    (applyBoundary mode b st).posLat ≤ b.maxLat := by
  unfold applyBoundary
  split
  · exact clampPos_mem b _ h1 h2
  · exact clampPos_mem b _ h1 h2

/-- C2: at the end of every simulation step, in both manual and auto mode, the
drone position lies inside the operating envelope: `posLng ∈ [minLng, maxLng]`
and `posLat ∈ [minLat, maxLat]`, enforced by the boundary policy's final clamp
on both axes (for any envelope whose box is nondegenerate in the sense
`min ≤ max` on each axis). -/
theorem envelope_containment_after_step (mode : Mode) (keys : Keys) (b : Bounds)
    (dt : ℝ) (st : SimState)
    (h1 : b.minLng ≤ b.maxLng) (h2 : b.minLat ≤ b.maxLat) :
    b.minLng ≤ (step mode keys b dt st).state.posLng ∧
    (step mode keys b dt st).state.posLng ≤ b.maxLng ∧
    b.minLat ≤ (step mode keys b dt st).state.posLat ∧
    (step mode keys b dt st).state.posLat ≤ b.maxLat := by
  have h : (step mode keys b dt st).state
      = applyBoundary mode b (stepKinematics mode keys (dt * FPS_BASELINE) st) := rfl
  rw [h]
  exact applyBoundary_mem mode b _ h1 h2

/-- Witness for C2 at a concrete envelope, state and time delta. -/
theorem envelope_containment_after_step_witness :
    (Bounds.mk 0 0 1 1).minLng
        ≤ (step Mode.auto keysNone (Bounds.mk 0 0 1 1) (1 / 60) (SimState.mk 0 0 0 0 0)).state.posLng ∧
    (step Mode.auto keysNone (Bounds.mk 0 0 1 1) (1 / 60) (SimState.mk 0 0 0 0 0)).state.posLng
        ≤ (Bounds.mk 0 0 1 1).maxLng ∧
    (Bounds.mk 0 0 1 1).minLat
        ≤ (step Mode.auto keysNone (Bounds.mk 0 0 1 1) (1 / 60) (SimState.mk 0 0 0 0 0)).state.posLat ∧
    (step Mode.auto keysNone (Bounds.mk 0 0 1 1) (1 / 60) (SimState.mk 0 0 0 0 0)).state.posLat
        ≤ (Bounds.mk 0 0 1 1).maxLat :=
  envelope_containment_after_step Mode.auto keysNone (Bounds.mk 0 0 1 1) (1 / 60)
    (SimState.mk 0 0 0 0 0) (by norm_num) (by norm_num)

/-! ## The manual idle step (claim C10) -/

theorem stepKinematics_manual_idle (scale : ℝ) (st : SimState)
    (hcl : ¬ (MAX_SPEED < hypot (st.velX * DRAG) (st.velY * DRAG))) :
    stepKinematics Mode.manual keysNone scale st =
      { posLng := st.posLng + st.velX * DRAG
        posLat := st.posLat + st.velY * DRAG
        yaw := st.yaw
        velX := st.velX * DRAG
        velY := st.velY * DRAG } := by
  have hyaw : yawAfterKeys Mode.manual keysNone st.yaw scale = st.yaw := by
    simp [yawAfterKeys, keysNone]
  have hth : thrustOf Mode.manual keysNone st.velX st.velY = 0 := by
    simp [thrustOf, keysNone]
  simp only [stepKinematics, hyaw, hth, mul_zero, zero_mul, add_zero, if_neg hcl]

/-- C10: in manual mode with no control flags set, one step multiplies each
velocity component by exactly `DRAG = 0.90` (so the post-step speed is `0.9`
times the pre-step speed and never exceeds it), the speed clamp is a no-op
given the speed-bound invariant held before the step, and the heading is
unchanged. -/
theorem manual_idle_step_drag (b : Bounds) (dt : ℝ) (st : SimState)
    (h : hypot st.velX st.velY ≤ MAX_SPEED) :
    (step Mode.manual keysNone b dt st).state.velX = DRAG * st.velX ∧
    (step Mode.manual keysNone b dt st).state.velY = DRAG * st.velY ∧
    (step Mode.manual keysNone b dt st).state.yaw = st.yaw ∧
    hypot (step Mode.manual keysNone b dt st).state.velX
        (step Mode.manual keysNone b dt st).state.velY
      = DRAG * hypot st.velX st.velY ∧
    hypot (step Mode.manual keysNone b dt st).state.velX
        (step Mode.manual keysNone b dt st).state.velY
      ≤ hypot st.velX st.velY := by
  have hstate : (step Mode.manual keysNone b dt st).state
      = clampPos b (stepKinematics Mode.manual keysNone (dt * FPS_BASELINE) st) := by
    show applyBoundary Mode.manual b _ = _
    unfold applyBoundary
    simp
  have hcl : ¬ (MAX_SPEED < hypot (st.velX * DRAG) (st.velY * DRAG)) := by
    rw [hypot_mul_const, abs_of_nonneg (by norm_num [DRAG])]
    have h0 : 0 ≤ hypot st.velX st.velY := hypot_nonneg st.velX st.velY
    have hM : MAX_SPEED = 0.00002 := rfl
    have hD : DRAG = 0.90 := rfl
    rw [not_lt]
    nlinarith
  rw [hstate, stepKinematics_manual_idle _ _ hcl]
  have h0 : 0 ≤ hypot st.velX st.velY := hypot_nonneg _ _
  have hD : DRAG = 0.90 := rfl
  refine ⟨mul_comm _ _, mul_comm _ _, rfl, ?_, ?_⟩
  · show hypot (st.velX * DRAG) (st.velY * DRAG) = _
    rw [hypot_mul_const, abs_of_nonneg (by norm_num [DRAG]), mul_comm]
  · show hypot (st.velX * DRAG) (st.velY * DRAG) ≤ _
    rw [hypot_mul_const, abs_of_nonneg (by norm_num [DRAG])]
    nlinarith

/-- Witness for C10 at a concrete state moving east at half the maximum speed. -/
theorem manual_idle_step_drag_witness :
    (step Mode.manual keysNone (Bounds.mk 0 0 1 1) (1 / 60) (SimState.mk 0 0 0 0.00001 0)).state.velX
        = DRAG * 0.00001 ∧
    (step Mode.manual keysNone (Bounds.mk 0 0 1 1) (1 / 60) (SimState.mk 0 0 0 0.00001 0)).state.velY
        = DRAG * 0 ∧
    (step Mode.manual keysNone (Bounds.mk 0 0 1 1) (1 / 60) (SimState.mk 0 0 0 0.00001 0)).state.yaw
        = 0 ∧
    hypot (step Mode.manual keysNone (Bounds.mk 0 0 1 1) (1 / 60) (SimState.mk 0 0 0 0.00001 0)).state.velX
        (step Mode.manual keysNone (Bounds.mk 0 0 1 1) (1 / 60) (SimState.mk 0 0 0 0.00001 0)).state.velY
        = DRAG * hypot 0.00001 0 ∧
    hypot (step Mode.manual keysNone (Bounds.mk 0 0 1 1) (1 / 60) (SimState.mk 0 0 0 0.00001 0)).state.velX
        (step Mode.manual keysNone (Bounds.mk 0 0 1 1) (1 / 60) (SimState.mk 0 0 0 0.00001 0)).state.velY
        ≤ hypot 0.00001 0 :=
  manual_idle_step_drag (Bounds.mk 0 0 1 1) (1 / 60) (SimState.mk 0 0 0 0.00001 0)
    (by rw [hypot_zero_right, abs_of_nonneg (by norm_num)]; norm_num [MAX_SPEED])

/-! ## The input sampler (claim C9) -/

/-- C9: the input sampler is inert in auto mode: every key-down and key-up
event leaves all four control flags unchanged, and the flags are not reset on
a mode change; in manual mode a key-down on an arrow key sets exactly the
matching flag true, a key-up sets it false, and any other key changes no
flag. -/
theorem input_sampler_spec (m : Mode) (k : JsKey) (ks : Keys) :
    onKeyDown Mode.auto k ks = ks ∧
    onKeyUp Mode.auto k ks = ks ∧
    (toggleModeUi (UiState.mk m ks)).keys = ks ∧
    onKeyDown Mode.manual JsKey.arrowUp ks = { ks with up := true } ∧
    onKeyDown Mode.manual JsKey.arrowDown ks = { ks with down := true } ∧
    onKeyDown Mode.manual JsKey.arrowLeft ks = { ks with left := true } ∧
    onKeyDown Mode.manual JsKey.arrowRight ks = { ks with right := true } ∧
    onKeyDown Mode.manual JsKey.other ks = ks ∧
    onKeyUp Mode.manual JsKey.arrowUp ks = { ks with up := false } ∧
    onKeyUp Mode.manual JsKey.arrowDown ks = { ks with down := false } ∧
    onKeyUp Mode.manual JsKey.arrowLeft ks = { ks with left := false } ∧
    onKeyUp Mode.manual JsKey.arrowRight ks = { ks with right := false } ∧
    onKeyUp Mode.manual JsKey.other ks = ks := by
  refine ⟨?_, ?_, rfl, ?_, ?_, ?_, ?_, ?_, ?_, ?_, ?_, ?_, ?_⟩ <;>
    simp [onKeyDown, onKeyUp]

/-! ## Mode-switch seeding (claim C5) -/

/-- C5 counterexample: the claim says the restarted loop is seeded with its
velocity from the last published sample, not from zero; but for a pre-switch
state moving east at `1e-5` degrees/frame, the first state of the restarted
loop has `velX = 0`, different from the pre-switch `velX`.  (The published
sample carries no velocity at all; the loop hardcodes `velX = 0`,
`velY = 0`.) -/
theorem mode_switch_velocity_not_seeded :
    (initLoopState (publishOf (SimState.mk 1 2 0 0.00001 0.000005))).velX = 0 ∧
    (initLoopState (publishOf (SimState.mk 1 2 0 0.00001 0.000005))).velX
      ≠ (SimState.mk 1 2 0 0.00001 0.000005).velX := by
  refine ⟨rfl, ?_⟩
  show (0 : ℝ) ≠ 0.00001
  norm_num

/-- C5 amended: on every mode transition the restarted simulation loop is
seeded with its position and heading from the last published drone sample
(position continuity, no teleport), while its velocity components are reset
to zero — the published sample carries no velocity. -/
theorem mode_switch_seed_from_sample (s : DroneSample) :
    (initLoopState s).posLng = s.longitude ∧
    (initLoopState s).posLat = s.latitude ∧
    (initLoopState s).yaw = s.headingDegrees * Real.pi / 180 ∧
    (initLoopState s).velX = 0 ∧
    (initLoopState s).velY = 0 :=
  ⟨rfl, rfl, rfl, rfl, rfl⟩

/-- Witness for C5 (amended) at a concrete sample. -/
theorem mode_switch_seed_from_sample_witness :
    (initLoopState (DroneSample.mk 3 4 45)).posLng = (DroneSample.mk 3 4 45).longitude ∧
    (initLoopState (DroneSample.mk 3 4 45)).posLat = (DroneSample.mk 3 4 45).latitude ∧
    (initLoopState (DroneSample.mk 3 4 45)).yaw
        = (DroneSample.mk 3 4 45).headingDegrees * Real.pi / 180 ∧
    (initLoopState (DroneSample.mk 3 4 45)).velX = 0 ∧
    (initLoopState (DroneSample.mk 3 4 45)).velY = 0 :=
  mode_switch_seed_from_sample (DroneSample.mk 3 4 45)

/-! ## Published heading (claim C3)

The published heading is `((yaw * 180) / Math.PI + 360) % 360` with the
JavaScript remainder, whose result takes the sign of the dividend.  Holding
the left arrow in manual mode decreases the yaw without bound, so once the
yaw drops below `-2π` the dividend is negative and the published heading is
negative — outside `[0°, 360°)`. -/

/-- A wide envelope for runs where the boundary is irrelevant. -/
def bWide : Bounds := ⟨-1000, -1000, 1000, 1000⟩

/-- The initial published drone sample of the dashboard (heading 45°). -/
def sampleInit : DroneSample := ⟨0, 0, 45⟩

theorem yawAfterKeys_left (y s : ℝ) :
    yawAfterKeys Mode.manual keysLeft y s
      = y - (YAW_RATE_DEG_PER_FRAME * Real.pi / 180) * s := by
  simp [yawAfterKeys, keysLeft]

theorem step_manual_yaw (keys : Keys) (b : Bounds) (dt : ℝ) (st : SimState) :
    (step Mode.manual keys b dt st).state.yaw
      = yawAfterKeys Mode.manual keys st.yaw (dt * FPS_BASELINE) := by
  show (applyBoundary Mode.manual b _).yaw = _
  unfold applyBoundary
  rw [if_neg (by decide : ¬ (Mode.manual = Mode.auto))]
  rfl

theorem runSteps_left_yaw (b : Bounds) (dt : ℝ) (st : SimState) (n : ℕ) :
    (runSteps Mode.manual keysLeft b dt st n).yaw
      = st.yaw - (n : ℝ) * ((YAW_RATE_DEG_PER_FRAME * Real.pi / 180) * (dt * FPS_BASELINE)) := by
  induction n with
  | zero => simp [runSteps]
  | succ n ih =>
    rw [runSteps, step_manual_yaw, yawAfterKeys_left, ih]
    push_cast
    ring

/-- C3 fails on the code: after 203 manual-mode steps at `dt = 1/60` holding
the left arrow, starting from the initial published sample (heading 45°), the
internal yaw is `-361°` in radians, and the published heading of that step is
`-1`, outside `[0°, 360°)`: the JavaScript remainder keeps the sign of its
dividend, so the single `+ 360` fails to normalize a yaw below `-2π`. -/
theorem published_heading_negative :
    (step Mode.manual keysLeft bWide (1 / 60)
        (runSteps Mode.manual keysLeft bWide (1 / 60) (initLoopState sampleInit) 202)).sample.headingDegrees
      = -1 ∧
    ¬ (0 ≤ (step Mode.manual keysLeft bWide (1 / 60)
        (runSteps Mode.manual keysLeft bWide (1 / 60) (initLoopState sampleInit) 202)).sample.headingDegrees) := by
  have hyaw : (runSteps Mode.manual keysLeft bWide (1 / 60) (initLoopState sampleInit) 203).yaw
      = -361 * Real.pi / 180 := by
    rw [runSteps_left_yaw]
    show sampleInit.headingDegrees * Real.pi / 180 - _ = _
    norm_num [sampleInit, YAW_RATE_DEG_PER_FRAME, FPS_BASELINE]
    ring
  have hstep : (step Mode.manual keysLeft bWide (1 / 60)
        (runSteps Mode.manual keysLeft bWide (1 / 60) (initLoopState sampleInit) 202)).sample.headingDegrees
      = headingDegOf (runSteps Mode.manual keysLeft bWide (1 / 60) (initLoopState sampleInit) 203).yaw := rfl
  rw [hstep, hyaw]
  have harg : -361 * Real.pi / 180 * 180 / Real.pi + 360 = -1 := by
    have hpi := Real.pi_ne_zero
    field_simp
    ring
  unfold headingDegOf
  rw [harg]
  have hceil : ⌈(-1 : ℝ) / 360⌉ = 0 := by
    rw [Int.ceil_eq_iff]
    norm_num
  unfold jsRem jsTrunc
  rw [if_neg (by norm_num), hceil]
  norm_num

/-! ## The auto-mode cruise controller (claim C4)

Starting from rest, the auto-mode velocity stays collinear with the (constant)
heading, so the speed follows the scalar recurrence
`s' = (s + (0.8 * MAX_SPEED - s) * 0.5) * DRAG = 0.45 * s + 0.36 * MAX_SPEED`,
whose fixed point is `(36/55) * MAX_SPEED ≈ 0.6545 * MAX_SPEED` — not the
`0.8 * MAX_SPEED` cruise target, because the drag multiplies the velocity
after the thrust is applied. -/

/-- The speed reached after one auto-mode step at speed `s` (at `scale = 1`),
when neither the thrust clamp nor the speed clamp is active. -/
def autoNext (s : ℝ) : ℝ :=
  (s + (MAX_SPEED * AUTO_SPEED_MULTIPLIER - s) * AUTO_SPEED_CORRECTION) * DRAG

/-- The auto-mode speed sequence from rest at `dt = 1/60`. -/
def autoSpeedSeq : ℕ → ℝ
  | 0 => 0
  | n + 1 => autoNext (autoSpeedSeq n)

/-- Iterated kinematic steps in auto mode at `dt = 1/60` (no boundary
interference). -/
def autoKinRun (keys : Keys) (st : SimState) : ℕ → SimState
  | 0 => st
  | n + 1 => stepKinematics Mode.auto keys (1 / 60 * FPS_BASELINE) (autoKinRun keys st n)

theorem autoNext_eq (s : ℝ) : autoNext s = 0.45 * s + 0.0000072 := by
  unfold autoNext MAX_SPEED AUTO_SPEED_MULTIPLIER AUTO_SPEED_CORRECTION DRAG
  ring

theorem autoSpeedSeq_closed (n : ℕ) :
    autoSpeedSeq n = 36 / 55 * MAX_SPEED * (1 - (9 / 20 : ℝ) ^ n) := by
  induction n with
  | zero => simp [autoSpeedSeq]
  | succ n ih =>
    rw [autoSpeedSeq, autoNext_eq, ih, pow_succ]
    unfold MAX_SPEED
    ring

theorem autoSpeedSeq_nonneg (n : ℕ) : 0 ≤ autoSpeedSeq n := by
  rw [autoSpeedSeq_closed]
  have hq : (9 / 20 : ℝ) ^ n ≤ 1 := pow_le_one₀ (by norm_num) (by norm_num)
  have hM : (0 : ℝ) < MAX_SPEED := by norm_num [MAX_SPEED]
  nlinarith

theorem autoSpeedSeq_lt (n : ℕ) : autoSpeedSeq n < 36 / 55 * MAX_SPEED := by
  rw [autoSpeedSeq_closed]
  have hq : (0 : ℝ) < (9 / 20 : ℝ) ^ n := pow_pos (by norm_num) n
  have hM : (0 : ℝ) < MAX_SPEED := by norm_num [MAX_SPEED]
  nlinarith

theorem autoSpeedSeq_mono (n : ℕ) : autoSpeedSeq n ≤ autoSpeedSeq (n + 1) := by
  rw [autoSpeedSeq_closed, autoSpeedSeq_closed, pow_succ]
  have hq : (0 : ℝ) ≤ (9 / 20 : ℝ) ^ n := pow_nonneg (by norm_num) n
  have hM : (0 : ℝ) < MAX_SPEED := by norm_num [MAX_SPEED]
  nlinarith

theorem autoSpeedSeq_gap (n : ℕ) :
    36 / 55 * MAX_SPEED - autoSpeedSeq n ≤ MAX_SPEED * (9 / 20 : ℝ) ^ n := by
  rw [autoSpeedSeq_closed]
  have hq : (0 : ℝ) ≤ (9 / 20 : ℝ) ^ n := pow_nonneg (by norm_num) n
  have hM : (0 : ℝ) < MAX_SPEED := by norm_num [MAX_SPEED]
  nlinarith

theorem thrustOf_auto (keys : Keys) (vx vy : ℝ) (h : hypot vx vy ≤ MAX_SPEED) :
    thrustOf Mode.auto keys vx vy
      = (MAX_SPEED * AUTO_SPEED_MULTIPLIER - hypot vx vy) * AUTO_SPEED_CORRECTION := by
  have h0 := hypot_nonneg vx vy
  have hmin : (MAX_SPEED * AUTO_SPEED_MULTIPLIER - hypot vx vy) * AUTO_SPEED_CORRECTION
      ≤ ACCELERATION := by
    norm_num [MAX_SPEED, AUTO_SPEED_MULTIPLIER, AUTO_SPEED_CORRECTION, ACCELERATION]
    linarith
  have hmax : -ACCELERATION
      ≤ (MAX_SPEED * AUTO_SPEED_MULTIPLIER - hypot vx vy) * AUTO_SPEED_CORRECTION := by
    norm_num [MAX_SPEED, AUTO_SPEED_MULTIPLIER, AUTO_SPEED_CORRECTION, ACCELERATION] at h ⊢
    linarith
  simp only [thrustOf]
  rw [if_neg (by decide : ¬ (Mode.auto = Mode.manual)), min_eq_right hmin, max_eq_right hmax]

theorem autoNext_nonneg (s : ℝ) (hs0 : 0 ≤ s) : 0 ≤ autoNext s := by
  rw [autoNext_eq]
  nlinarith

theorem autoNext_le (s : ℝ) (hs1 : s ≤ MAX_SPEED) : autoNext s ≤ MAX_SPEED := by
  rw [autoNext_eq]
  rw [show MAX_SPEED = 0.00002 from rfl] at hs1 ⊢
  nlinarith

theorem stepKinematics_auto_spin (keys : Keys) (t s : ℝ) (st : SimState)
    (hyaw : st.yaw = t) (hx : st.velX = Real.sin t * s) (hy : st.velY = Real.cos t * s)
    (hs0 : 0 ≤ s) (hs1 : s ≤ MAX_SPEED) :
    (stepKinematics Mode.auto keys (1 / 60 * FPS_BASELINE) st).yaw = t ∧
    (stepKinematics Mode.auto keys (1 / 60 * FPS_BASELINE) st).velX
        = Real.sin t * autoNext s ∧
    (stepKinematics Mode.auto keys (1 / 60 * FPS_BASELINE) st).velY
        = Real.cos t * autoNext s := by
  have hsp : hypot (Real.sin t * s) (Real.cos t * s) = s := by
    rw [hypot_sin_cos, abs_of_nonneg hs0]
  have hyawK : yawAfterKeys Mode.auto keys t (1 / 60 * FPS_BASELINE) = t := by
    simp [yawAfterKeys]
  have hth : thrustOf Mode.auto keys (Real.sin t * s) (Real.cos t * s)
      = (MAX_SPEED * AUTO_SPEED_MULTIPLIER - s) * AUTO_SPEED_CORRECTION := by
    rw [thrustOf_auto keys _ _ (le_of_eq_of_le hsp hs1), hsp]
  have hscale : (1 / 60 : ℝ) * FPS_BASELINE = 1 := by norm_num [FPS_BASELINE]
  have hvx1 : (Real.sin t * s
        + Real.sin t * ((MAX_SPEED * AUTO_SPEED_MULTIPLIER - s) * AUTO_SPEED_CORRECTION)
          * (1 / 60 * FPS_BASELINE)) * DRAG
      = Real.sin t * autoNext s := by
    rw [hscale, mul_one]
    unfold autoNext
    ring
  have hvy1 : (Real.cos t * s
        + Real.cos t * ((MAX_SPEED * AUTO_SPEED_MULTIPLIER - s) * AUTO_SPEED_CORRECTION)
          * (1 / 60 * FPS_BASELINE)) * DRAG
      = Real.cos t * autoNext s := by
    rw [hscale, mul_one]
    unfold autoNext
    ring
  have hnoclamp : ¬ (MAX_SPEED < hypot (Real.sin t * autoNext s) (Real.cos t * autoNext s)) := by
    rw [hypot_sin_cos, abs_of_nonneg (autoNext_nonneg s hs0), not_lt]
    exact autoNext_le s hs1
  refine ⟨?_, ?_, ?_⟩ <;>
    simp only [stepKinematics, hyaw, hx, hy, hyawK, hth, hvx1, hvy1, if_neg hnoclamp]

theorem autoKinRun_spec (keys : Keys) (lng lat t : ℝ) (n : ℕ) :
    (autoKinRun keys (SimState.mk lng lat t 0 0) n).yaw = t ∧
    (autoKinRun keys (SimState.mk lng lat t 0 0) n).velX = Real.sin t * autoSpeedSeq n ∧
    (autoKinRun keys (SimState.mk lng lat t 0 0) n).velY = Real.cos t * autoSpeedSeq n := by
  induction n with
  | zero => refine ⟨rfl, ?_, ?_⟩ <;> simp [autoKinRun, autoSpeedSeq]
  | succ n ih =>
    obtain ⟨h1, h2, h3⟩ := ih
    have hM : 36 / 55 * MAX_SPEED ≤ MAX_SPEED := by norm_num [MAX_SPEED]
    have hstep := stepKinematics_auto_spin keys t (autoSpeedSeq n) _ h1 h2 h3
      (autoSpeedSeq_nonneg n) ((autoSpeedSeq_lt n).le.trans hM)
    rw [autoKinRun]
    exact ⟨hstep.1, by rw [hstep.2.1, autoSpeedSeq], by rw [hstep.2.2, autoSpeedSeq]⟩

theorem autoKinRun_speed (keys : Keys) (lng lat t : ℝ) (n : ℕ) :
    hypot (autoKinRun keys (SimState.mk lng lat t 0 0) n).velX
        (autoKinRun keys (SimState.mk lng lat t 0 0) n).velY
      = autoSpeedSeq n := by
  obtain ⟨h1, h2, h3⟩ := autoKinRun_spec keys lng lat t n
  rw [h2, h3, hypot_sin_cos, abs_of_nonneg (autoSpeedSeq_nonneg n)]

/-- C4 fails on the code: from rest in auto mode with no boundary interference
at `dt = 1/60`, after 200 ticks the speed is still at least
`(8/55) * MAX_SPEED ≈ 2.9e-6` degrees/frame (more than 18% of the target)
below `0.8 * MAX_SPEED`: the controller's fixed point is
`(36/55) * MAX_SPEED`, because the drag multiplies the velocity after the
thrust is applied, so the speed never comes within a small tolerance of
`0.8 * MAX_SPEED`. -/
theorem auto_cruise_gap_at_200 :
    8 / 55 * MAX_SPEED
      ≤ AUTO_SPEED_MULTIPLIER * MAX_SPEED
        - hypot (autoKinRun keysNone (SimState.mk 0 0 0 0 0) 200).velX
            (autoKinRun keysNone (SimState.mk 0 0 0 0 0) 200).velY := by
  rw [autoKinRun_speed]
  have h := autoSpeedSeq_lt 200
  norm_num [MAX_SPEED, AUTO_SPEED_MULTIPLIER] at h ⊢
  linarith

/-- C4 amended: starting from rest in auto mode (any heading, any key flags)
with no boundary interference at `dt = 1/60`, the speed after `n` ticks equals
`(36/55) * MAX_SPEED * (1 - (9/20)^n)`: it increases monotonically, stays
strictly below its limit `(36/55) * MAX_SPEED ≈ 0.6545 * MAX_SPEED` (hence in
particular never overshoots `0.8 * MAX_SPEED`), and converges to that limit
geometrically — within `MAX_SPEED * (9/20)^n` after `n` ticks, a negligible
tolerance for `n ≥ 200`; the limit is not `0.8 * MAX_SPEED`. -/
theorem auto_cruise_convergence (keys : Keys) (lng lat t : ℝ) (n : ℕ) :
    hypot (autoKinRun keys (SimState.mk lng lat t 0 0) n).velX
        (autoKinRun keys (SimState.mk lng lat t 0 0) n).velY
      = 36 / 55 * MAX_SPEED * (1 - (9 / 20 : ℝ) ^ n) ∧
    hypot (autoKinRun keys (SimState.mk lng lat t 0 0) n).velX
        (autoKinRun keys (SimState.mk lng lat t 0 0) n).velY
      ≤ hypot (autoKinRun keys (SimState.mk lng lat t 0 0) (n + 1)).velX
          (autoKinRun keys (SimState.mk lng lat t 0 0) (n + 1)).velY ∧
    hypot (autoKinRun keys (SimState.mk lng lat t 0 0) n).velX
        (autoKinRun keys (SimState.mk lng lat t 0 0) n).velY
      < 36 / 55 * MAX_SPEED ∧
    36 / 55 * MAX_SPEED
        - hypot (autoKinRun keys (SimState.mk lng lat t 0 0) n).velX
            (autoKinRun keys (SimState.mk lng lat t 0 0) n).velY
      ≤ MAX_SPEED * (9 / 20 : ℝ) ^ n ∧
    hypot (autoKinRun keys (SimState.mk lng lat t 0 0) n).velX
        (autoKinRun keys (SimState.mk lng lat t 0 0) n).velY
      < AUTO_SPEED_MULTIPLIER * MAX_SPEED := by
  rw [autoKinRun_speed, autoKinRun_speed]
  refine ⟨autoSpeedSeq_closed n, autoSpeedSeq_mono n, autoSpeedSeq_lt n, autoSpeedSeq_gap n, ?_⟩
  exact lt_of_lt_of_le (autoSpeedSeq_lt n) (by norm_num [MAX_SPEED, AUTO_SPEED_MULTIPLIER])

/-! ## Boundary reflection (claim C7) -/

theorem reflectEast_id (b : Bounds) (st : SimState)
    (h : ¬ (b.maxLng - BOUNDARY_MARGIN ≤ st.posLng ∧ 0 < st.velX)) :
    reflectEast b st = st := by
  unfold reflectEast
  exact if_neg h

theorem reflectSouth_id (b : Bounds) (st : SimState)
    (h : ¬ (st.posLat ≤ b.minLat + BOUNDARY_MARGIN ∧ st.velY < 0)) :
    reflectSouth b st = st := by
  unfold reflectSouth
  exact if_neg h

theorem reflectNorth_id (b : Bounds) (st : SimState)
    (h : ¬ (b.maxLat - BOUNDARY_MARGIN ≤ st.posLat ∧ 0 < st.velY)) :
    reflectNorth b st = st := by
  unfold reflectNorth
  exact if_neg h

/-- C7: in auto mode, for a state that has crossed the west edge
(`posLng ≤ minLng + BOUNDARY_MARGIN`) with the velocity still pointing west
(`velX < 0`), and that does not simultaneously trigger the east, south or
north checks, the boundary policy negates `velX` (magnitude preserved, `velY`
unchanged) and recomputes the heading as `atan2 velX velY` of the updated
velocity; afterwards the position is clamped into `[min, max]` on both axes.
The east, south and north edges are handled symmetrically and independently,
in that order. -/
theorem boundary_reflect_west (b : Bounds) (st : SimState)
    (hw1 : st.posLng ≤ b.minLng + BOUNDARY_MARGIN) (hw2 : st.velX < 0)
    (hE : st.posLng < b.maxLng - BOUNDARY_MARGIN)
    (hS : ¬ (st.posLat ≤ b.minLat + BOUNDARY_MARGIN ∧ st.velY < 0))
    (hN : ¬ (b.maxLat - BOUNDARY_MARGIN ≤ st.posLat ∧ 0 < st.velY)) :
    (applyBoundary Mode.auto b st).velX = -st.velX ∧
    (applyBoundary Mode.auto b st).velY = st.velY ∧
    (applyBoundary Mode.auto b st).yaw
        = atan2 (applyBoundary Mode.auto b st).velX (applyBoundary Mode.auto b st).velY ∧
    hypot (applyBoundary Mode.auto b st).velX (applyBoundary Mode.auto b st).velY
        = hypot st.velX st.velY ∧
    (applyBoundary Mode.auto b st).posLng = min b.maxLng (max b.minLng st.posLng) ∧
    (applyBoundary Mode.auto b st).posLat = min b.maxLat (max b.minLat st.posLat) := by
  have r1 : reflectWest b st
      = SimState.mk st.posLng st.posLat (atan2 (-st.velX) st.velY) (-st.velX) st.velY := by
    unfold reflectWest
    rw [if_pos ⟨hw1, hw2⟩]
  have r2 : reflectEast b
        (SimState.mk st.posLng st.posLat (atan2 (-st.velX) st.velY) (-st.velX) st.velY)
      = SimState.mk st.posLng st.posLat (atan2 (-st.velX) st.velY) (-st.velX) st.velY :=
    reflectEast_id b _ (fun hc => absurd hc.1 (not_le.mpr hE))
  have r3 : reflectSouth b
        (SimState.mk st.posLng st.posLat (atan2 (-st.velX) st.velY) (-st.velX) st.velY)
      = SimState.mk st.posLng st.posLat (atan2 (-st.velX) st.velY) (-st.velX) st.velY :=
    reflectSouth_id b _ hS
  have r4 : reflectNorth b
        (SimState.mk st.posLng st.posLat (atan2 (-st.velX) st.velY) (-st.velX) st.velY)
      = SimState.mk st.posLng st.posLat (atan2 (-st.velX) st.velY) (-st.velX) st.velY :=
    reflectNorth_id b _ hN
  have e1 : applyBoundary Mode.auto b st
      = clampPos b
          (SimState.mk st.posLng st.posLat (atan2 (-st.velX) st.velY) (-st.velX) st.velY) := by
    unfold applyBoundary
    rw [if_pos rfl, r1, r2, r3, r4]
  refine ⟨?_, ?_, ?_, ?_, ?_, ?_⟩ <;> rw [e1]
  · rfl
  · rfl
  · rfl
  · exact hypot_neg_left st.velX st.velY
  · rfl
  · rfl

/-- Witness for C7: a drone at the west edge of the unit box moving west at
`1e-5` degrees/frame. -/
theorem boundary_reflect_west_witness :
    (applyBoundary Mode.auto (Bounds.mk 0 0 1 1) (SimState.mk 0 0.5 0 (-0.00001) 0)).velX
        = -(SimState.mk 0 0.5 0 (-0.00001) 0).velX ∧
    (applyBoundary Mode.auto (Bounds.mk 0 0 1 1) (SimState.mk 0 0.5 0 (-0.00001) 0)).velY
        = (SimState.mk 0 0.5 0 (-0.00001) 0).velY ∧
    (applyBoundary Mode.auto (Bounds.mk 0 0 1 1) (SimState.mk 0 0.5 0 (-0.00001) 0)).yaw
        = atan2 (applyBoundary Mode.auto (Bounds.mk 0 0 1 1) (SimState.mk 0 0.5 0 (-0.00001) 0)).velX
            (applyBoundary Mode.auto (Bounds.mk 0 0 1 1) (SimState.mk 0 0.5 0 (-0.00001) 0)).velY ∧
    hypot (applyBoundary Mode.auto (Bounds.mk 0 0 1 1) (SimState.mk 0 0.5 0 (-0.00001) 0)).velX
        (applyBoundary Mode.auto (Bounds.mk 0 0 1 1) (SimState.mk 0 0.5 0 (-0.00001) 0)).velY
        = hypot (SimState.mk 0 0.5 0 (-0.00001) 0).velX (SimState.mk 0 0.5 0 (-0.00001) 0).velY ∧
    (applyBoundary Mode.auto (Bounds.mk 0 0 1 1) (SimState.mk 0 0.5 0 (-0.00001) 0)).posLng
        = min (Bounds.mk 0 0 1 1).maxLng
            (max (Bounds.mk 0 0 1 1).minLng (SimState.mk 0 0.5 0 (-0.00001) 0).posLng) ∧
    (applyBoundary Mode.auto (Bounds.mk 0 0 1 1) (SimState.mk 0 0.5 0 (-0.00001) 0)).posLat
        = min (Bounds.mk 0 0 1 1).maxLat
            (max (Bounds.mk 0 0 1 1).minLat (SimState.mk 0 0.5 0 (-0.00001) 0).posLat) :=
  boundary_reflect_west (Bounds.mk 0 0 1 1) (SimState.mk 0 0.5 0 (-0.00001) 0)
    (by norm_num [BOUNDARY_MARGIN]) (by norm_num) (by norm_num [BOUNDARY_MARGIN])
    (by norm_num [BOUNDARY_MARGIN]) (by norm_num [BOUNDARY_MARGIN])

/-! ## Degenerate envelopes are accepted silently (claim C6) -/

theorem bboxOf_const (p : ℝ × ℝ) : ∀ (pts : List (ℝ × ℝ)), (∀ q ∈ pts, q = p) →
    bboxOf p pts = Bounds.mk p.1 p.2 p.1 p.2 := by
  intro pts
  induction pts with
  | nil => intro _; rfl
  | cons q rest ih =>
    intro h
    have hq : q = p := h q (List.mem_cons_self q rest)
    unfold bboxOf at ih ⊢
    rw [List.foldl_cons, hq]
    simp only [min_self, max_self]
    exact ih (fun r hr => h r (List.mem_cons_of_mem _ hr))

theorem clampPos_degenerate (p : ℝ × ℝ) (st : SimState) :
    (clampPos (Bounds.mk p.1 p.2 p.1 p.2) st).posLng = p.1 ∧
    (clampPos (Bounds.mk p.1 p.2 p.1 p.2) st).posLat = p.2 := by
  constructor
  · show min p.1 (max p.1 st.posLng) = p.1
    exact min_eq_left (le_max_left _ _)
  · show min p.2 (max p.2 st.posLat) = p.2
    exact min_eq_left (le_max_left _ _)

theorem applyBoundary_degenerate (mode : Mode) (p : ℝ × ℝ) (st : SimState) :
    (applyBoundary mode (Bounds.mk p.1 p.2 p.1 p.2) st).posLng = p.1 ∧
    (applyBoundary mode (Bounds.mk p.1 p.2 p.1 p.2) st).posLat = p.2 := by
  unfold applyBoundary
  split
  · exact clampPos_degenerate p _
  · exact clampPos_degenerate p _

/-- C6 counterexample: for the concrete degenerate polygon all of whose points
are `(10, 20)`, `calculateMapBounds` returns normally — it has no error path —
with `minLng = maxLng`, and the simulation loop runs per-tick with that box,
the clamp pinning the position to the point; nothing reports a fatal
configuration error before the loop starts. -/
theorem degenerate_envelope_no_error :
    (calculateMapBounds ((10 : ℝ), (20 : ℝ)) [((10 : ℝ), (20 : ℝ))]).1.minLng
        = (calculateMapBounds ((10 : ℝ), (20 : ℝ)) [((10 : ℝ), (20 : ℝ))]).1.maxLng ∧
    (step Mode.auto keysNone (calculateMapBounds ((10 : ℝ), (20 : ℝ)) [((10 : ℝ), (20 : ℝ))]).1
        (1 / 60) (SimState.mk 10 20 0 0 0)).state.posLng = 10 ∧
    (step Mode.auto keysNone (calculateMapBounds ((10 : ℝ), (20 : ℝ)) [((10 : ℝ), (20 : ℝ))]).1
        (1 / 60) (SimState.mk 10 20 0 0 0)).state.posLat = 20 := by
  have hb : (calculateMapBounds ((10 : ℝ), (20 : ℝ)) [((10 : ℝ), (20 : ℝ))]).1
      = Bounds.mk 10 20 10 20 :=
    bboxOf_const ((10 : ℝ), (20 : ℝ)) [((10 : ℝ), (20 : ℝ))] (by intro q hq; simpa using hq)
  have hstep : (step Mode.auto keysNone
        (calculateMapBounds ((10 : ℝ), (20 : ℝ)) [((10 : ℝ), (20 : ℝ))]).1
        (1 / 60) (SimState.mk 10 20 0 0 0)).state
      = applyBoundary Mode.auto
          (calculateMapBounds ((10 : ℝ), (20 : ℝ)) [((10 : ℝ), (20 : ℝ))]).1
          (stepKinematics Mode.auto keysNone (1 / 60 * FPS_BASELINE)
            (SimState.mk 10 20 0 0 0)) := rfl
  refine ⟨?_, ?_, ?_⟩
  · rw [hb]
  · rw [hstep, hb]
    exact (applyBoundary_degenerate Mode.auto ((10 : ℝ), (20 : ℝ)) _).1
  · rw [hstep, hb]
    exact (applyBoundary_degenerate Mode.auto ((10 : ℝ), (20 : ℝ)) _).2

/-- C6 fails on the code: a malformed `OperatingEnvelope` is not a fatal
configuration error.  For any degenerate boundary polygon whose points all
coincide, `calculateMapBounds` returns normally (it has no error path at all)
with a bounding box satisfying `minLng = maxLng` and `minLat = maxLat`, and
the simulation loop runs with that box: every step's per-tick position clamp
silently pins the drone to the single point. -/
theorem degenerate_envelope_accepted (p : ℝ × ℝ) (pts : List (ℝ × ℝ))
    (h : ∀ q ∈ pts, q = p) (mode : Mode) (keys : Keys) (dt : ℝ) (st : SimState) :
    (calculateMapBounds p pts).1.minLng = (calculateMapBounds p pts).1.maxLng ∧
    (calculateMapBounds p pts).1.minLat = (calculateMapBounds p pts).1.maxLat ∧
    (calculateMapBounds p pts).2 = p ∧
    (step mode keys (calculateMapBounds p pts).1 dt st).state.posLng = p.1 ∧
    (step mode keys (calculateMapBounds p pts).1 dt st).state.posLat = p.2 := by
  have hb : (calculateMapBounds p pts).1 = Bounds.mk p.1 p.2 p.1 p.2 := bboxOf_const p pts h
  have hpair : (calculateMapBounds p pts).2
      = (((calculateMapBounds p pts).1.minLng + (calculateMapBounds p pts).1.maxLng) / 2,
          ((calculateMapBounds p pts).1.minLat + (calculateMapBounds p pts).1.maxLat) / 2) := rfl
  have hstep : (step mode keys (calculateMapBounds p pts).1 dt st).state
      = applyBoundary mode (calculateMapBounds p pts).1
          (stepKinematics mode keys (dt * FPS_BASELINE) st) := rfl
  refine ⟨?_, ?_, ?_, ?_, ?_⟩
  · rw [hb]
  · rw [hb]
  · rw [hpair, hb]
    rw [Prod.ext_iff]
    constructor
    · show (p.1 + p.1) / 2 = p.1
      ring
    · show (p.2 + p.2) / 2 = p.2
      ring
  · rw [hstep, hb]
    exact (applyBoundary_degenerate mode p _).1
  · rw [hstep, hb]
    exact (applyBoundary_degenerate mode p _).2

/-- Witness for C6: a degenerate triangle all of whose vertices are
`(10, 20)`. -/
theorem degenerate_envelope_accepted_witness :
    (calculateMapBounds ((10 : ℝ), (20 : ℝ)) [((10 : ℝ), (20 : ℝ)), ((10 : ℝ), (20 : ℝ))]).1.minLng
        = (calculateMapBounds ((10 : ℝ), (20 : ℝ)) [((10 : ℝ), (20 : ℝ)), ((10 : ℝ), (20 : ℝ))]).1.maxLng ∧
    (calculateMapBounds ((10 : ℝ), (20 : ℝ)) [((10 : ℝ), (20 : ℝ)), ((10 : ℝ), (20 : ℝ))]).1.minLat
        = (calculateMapBounds ((10 : ℝ), (20 : ℝ)) [((10 : ℝ), (20 : ℝ)), ((10 : ℝ), (20 : ℝ))]).1.maxLat ∧
    (calculateMapBounds ((10 : ℝ), (20 : ℝ)) [((10 : ℝ), (20 : ℝ)), ((10 : ℝ), (20 : ℝ))]).2
        = ((10 : ℝ), (20 : ℝ)) ∧
    (step Mode.auto keysNone
        (calculateMapBounds ((10 : ℝ), (20 : ℝ)) [((10 : ℝ), (20 : ℝ)), ((10 : ℝ), (20 : ℝ))]).1
        (1 / 60) (SimState.mk 0 0 0 0 0)).state.posLng = ((10 : ℝ), (20 : ℝ)).1 ∧
    (step Mode.auto keysNone
        (calculateMapBounds ((10 : ℝ), (20 : ℝ)) [((10 : ℝ), (20 : ℝ)), ((10 : ℝ), (20 : ℝ))]).1
        (1 / 60) (SimState.mk 0 0 0 0 0)).state.posLat = ((10 : ℝ), (20 : ℝ)).2 :=
  degenerate_envelope_accepted ((10 : ℝ), (20 : ℝ)) [((10 : ℝ), (20 : ℝ)), ((10 : ℝ), (20 : ℝ))]
    (by intro q hq; simpa using hq) Mode.auto keysNone (1 / 60) (SimState.mk 0 0 0 0 0)

/-! ## The derived-telemetry projector (claim C8) -/

/-- C8: for every step, the published speed equals
`hypot (velX * METERS_PER_DEG_LAT * cos latRadians) (velY * METERS_PER_DEG_LAT) / dt`
when `dt > 0` — computed from the post-clamp velocity and the post-update
latitude — and equals exactly `0` when `dt = 0`; at latitude `50.0614°` with
post-step `velX = 2e-5`, `velY = 0` and `dt = 1/60`, the published speed is
exactly `hypot (2e-5 * 111320 * cos 50.0614°) 0 / (1/60)` (so it matches the
spec's formula to any number of significant digits). -/
theorem published_speed_formula (mode : Mode) (keys : Keys) (b : Bounds) (dt : ℝ)
    (st : SimState) :
    (step mode keys b dt st).speedMps
      = (if 0 < dt then
          hypot
            ((stepKinematics mode keys (dt * FPS_BASELINE) st).velX
              * (METERS_PER_DEG_LAT
                * Real.cos ((stepKinematics mode keys (dt * FPS_BASELINE) st).posLat
                    * Real.pi / 180)))
            ((stepKinematics mode keys (dt * FPS_BASELINE) st).velY * METERS_PER_DEG_LAT) / dt
        else 0) ∧
    (step mode keys b 0 st).speedMps = 0 ∧
    (step Mode.manual keysNone bWide (1 / 60)
        (SimState.mk 0 50.0614 0 (0.00002 / 0.9) 0)).speedMps
      = hypot (0.00002 * 111320 * Real.cos (50.0614 * Real.pi / 180)) 0 / (1 / 60) := by
  refine ⟨rfl, ?_, ?_⟩
  · have h2 : (step mode keys b 0 st).speedMps
        = instSpeedOf (stepKinematics mode keys (0 * FPS_BASELINE) st).velX
            (stepKinematics mode keys (0 * FPS_BASELINE) st).velY
            (stepKinematics mode keys (0 * FPS_BASELINE) st).posLat 0 := rfl
    rw [h2]
    simp only [instSpeedOf]
    rw [if_neg (lt_irrefl (0 : ℝ))]
  · have hcl : ¬ (MAX_SPEED
        < hypot ((SimState.mk 0 50.0614 0 (0.00002 / 0.9) 0).velX * DRAG)
            ((SimState.mk 0 50.0614 0 (0.00002 / 0.9) 0).velY * DRAG)) := by
      show ¬ (MAX_SPEED < hypot (0.00002 / 0.9 * DRAG) (0 * DRAG))
      rw [show (0.00002 / 0.9 * DRAG : ℝ) = 0.00002 by norm_num [DRAG], zero_mul,
        hypot_zero_right, abs_of_nonneg (by norm_num)]
      norm_num [MAX_SPEED]
    have hkin := stepKinematics_manual_idle (1 / 60 * FPS_BASELINE)
      (SimState.mk 0 50.0614 0 (0.00002 / 0.9) 0) hcl
    have hs : (step Mode.manual keysNone bWide (1 / 60)
          (SimState.mk 0 50.0614 0 (0.00002 / 0.9) 0)).speedMps
        = instSpeedOf
            (stepKinematics Mode.manual keysNone (1 / 60 * FPS_BASELINE)
              (SimState.mk 0 50.0614 0 (0.00002 / 0.9) 0)).velX
            (stepKinematics Mode.manual keysNone (1 / 60 * FPS_BASELINE)
              (SimState.mk 0 50.0614 0 (0.00002 / 0.9) 0)).velY
            (stepKinematics Mode.manual keysNone (1 / 60 * FPS_BASELINE)
              (SimState.mk 0 50.0614 0 (0.00002 / 0.9) 0)).posLat (1 / 60) := rfl
    rw [hs, hkin]
    show instSpeedOf (0.00002 / 0.9 * DRAG) (0 * DRAG) (50.0614 + 0 * DRAG) (1 / 60) = _
    simp only [instSpeedOf]
    rw [if_pos (by norm_num : (0 : ℝ) < 1 / 60)]
    have harg1 : (0.00002 / 0.9 * DRAG : ℝ)
        * (METERS_PER_DEG_LAT * Real.cos ((50.0614 + 0 * DRAG) * Real.pi / 180))
        = 0.00002 * 111320 * Real.cos (50.0614 * Real.pi / 180) := by
      norm_num [DRAG, METERS_PER_DEG_LAT]
      ring
    have harg2 : (0 * DRAG : ℝ) * METERS_PER_DEG_LAT = 0 := by norm_num
    rw [harg1, harg2]

end

end Aisp
